import Mathlib

/-!
Verification of the WorkSession lifecycle state machine of the
yoshikosan-backend repository.

The definitions below are a shallow embedding of
`src/domain/work_session/entities.py` (aggregate `WorkSession`, value
`SafetyCheck`, and every mutating method), together with the pause /
resume / abort transitions described by the specification, and the
repository query `get_current_for_worker` of
`src/infrastructure/database/repositories/session_repository.py`.

Modelling conventions:
* UUIDs and timestamps are `Nat`; `datetime.now()` becomes an explicit
  `now : Nat` argument to every operation that reads the clock.
* Python float `confidence_score` is modelled with `Rat`.
* A Python method that mutates `self` and may `raise ValueError(msg)`
  becomes a function `WorkSession → Option String × WorkSession`: the
  first component is `some msg` when the method raises and `none` when it
  returns normally; the second component is the state of the object after
  the call (including any mutations performed before a raise, so the
  embedding is statement-by-statement faithful).
* Python truthiness is embedded explicitly: `not s` on an optional string
  is true for `none` and for `some ""`.
-/

/-- Work session status.  The variants `in_progress`, `completed`,
`approved` and `rejected` come from the `SessionStatus` enum of
`entities.py`; `paused` and `aborted` are the two further statuses
declared by the database check constraint
(`alembic/versions/004_add_session_pause_abort.py`), by
`schemas/session.py` and by the specification's state table. -/
inductive SessionStatus where
  | in_progress
  | paused
  | completed
  | aborted
  | approved
  | rejected
deriving DecidableEq, Repr

/-- Safety check result (`CheckResult` enum of `entities.py`). -/
inductive CheckResult where
  | pass
  | fail
  | override
deriving DecidableEq, Repr

/-- Safety check performed during a work session (`SafetyCheck` dataclass
of `entities.py`). -/
structure SafetyCheck where
  step_id : Nat
  result : CheckResult
  feedback_text : String
  id : Nat
  feedback_audio_url : Option String
  confidence_score : Option Rat
  needs_review : Bool
  checked_at : Nat
  override_reason : Option String
  override_by : Option Nat
deriving DecidableEq, Repr

/-- Python truthiness test `not x` for an optional string: true exactly
for `None` and for the empty string. -/
def pyStrFalsy : Option String → Bool
  | none => true
  | some t => decide (t = "")

/-- The Python guard `not text.strip()`: `text.strip()` is falsy exactly
when every character of `text` is whitespace (in particular for the empty
string). -/
def pyStripEmpty (text : String) : Bool :=
  text.data.all Char.isWhitespace

/-- The condition `confidence_score is not None and not
(0.0 <= confidence_score <= 1.0)` of `SafetyCheck.__post_init__`. -/
def confidence_out_of_range : Option Rat → Bool
  | none => false
  | some c => decide (c < 0) || decide (1 < c)

/-- Validating constructor of `SafetyCheck`: dataclass construction
followed by `__post_init__` (entities.py lines 41-52), with the four
checks in source order.  Returns the constructed check or the message of
the raised `ValueError`. -/
def SafetyCheck.make (step_id : Nat) (result : CheckResult)
    (feedback_text : String) (cid : Nat) (feedback_audio_url : Option String)
    (confidence_score : Option Rat) (needs_review : Bool) (checked_at : Nat)
    (override_reason : Option String) (override_by : Option Nat) :
    Except String SafetyCheck :=
  if pyStripEmpty feedback_text then
    .error "Feedback text cannot be empty"
  else if confidence_out_of_range confidence_score then
    .error "Confidence score must be between 0.0 and 1.0"
  else if result = CheckResult.override ∧ pyStrFalsy override_reason = true then
    .error "Override result requires override_reason"
  else if result = CheckResult.override ∧ override_by = none then
    .error "Override result requires override_by"
  else
    .ok { step_id := step_id, result := result,
          feedback_text := feedback_text, id := cid,
          feedback_audio_url := feedback_audio_url,
          confidence_score := confidence_score,
          needs_review := needs_review, checked_at := checked_at,
          override_reason := override_reason, override_by := override_by }

/-- Work session aggregate root (`WorkSession` dataclass of
`entities.py`).  The fields `paused_at`, `aborted_at` and `abort_reason`
are the three columns added by migration 004 and exposed by
`schemas/session.py` and `models.py`; they carry the pause/abort state of
the specification. -/
structure WorkSession where
  sop_id : Nat
  worker_id : Nat
  id : Nat
  status : SessionStatus
  current_step_id : Option Nat
  started_at : Nat
  completed_at : Option Nat
  approved_at : Option Nat
  approved_by : Option Nat
  locked : Bool
  rejection_reason : Option String
  checks : List SafetyCheck
  paused_at : Option Nat
  aborted_at : Option Nat
  abort_reason : Option String
deriving DecidableEq, Repr

namespace WorkSession

/-- `add_check` (entities.py lines 77-115): locked guard, in-progress
guard, then construction of the `SafetyCheck` (whose `__post_init__` may
raise) and append.  `cid` stands for the fresh `uuid4` of the check and
`now` for its `checked_at` default. -/
def add_check (now cid : Nat) (step_id : Nat) (result : CheckResult)
    (feedback_text : String) (feedback_audio_url : Option String)
    (confidence_score : Option Rat) (needs_review : Bool)
    (s : WorkSession) : Option String × WorkSession :=
  if s.locked then (some "Cannot modify a locked session", s)
  else if s.status ≠ SessionStatus.in_progress then
    (some "Can only add checks to in-progress sessions", s)
  else
    match SafetyCheck.make step_id result feedback_text cid
        feedback_audio_url confidence_score needs_review now none none with
    | .error e => (some e, s)
    | .ok c => (none, { s with checks := s.checks ++ [c] })

/-- `complete` (entities.py lines 136-147). -/
def complete (now : Nat) (s : WorkSession) : Option String × WorkSession :=
  if s.locked then (some "Cannot modify a locked session", s)
  else if s.status ≠ SessionStatus.in_progress then
    (some "Can only complete in-progress sessions", s)
  else
    (none, { s with status := SessionStatus.completed,
                    completed_at := some now })

/-- `advance_to_next_step` (entities.py lines 117-134): after the guards
it first assigns `current_step_id` and then, when the next step is
`None`, calls `complete` on the already-mutated state. -/
def advance_to_next_step (now : Nat) (next_step_id : Option Nat)
    (s : WorkSession) : Option String × WorkSession :=
  if s.locked then (some "Cannot modify a locked session", s)
  else if s.status ≠ SessionStatus.in_progress then
    (some "Can only advance in-progress sessions", s)
  else
    let s1 := { s with current_step_id := next_step_id }
    match next_step_id with
    | none => complete now s1
    | some _ => (none, s1)

/-- `approve` (entities.py lines 149-165). -/
def approve (now : Nat) (supervisor_id : Nat) (s : WorkSession) :
    Option String × WorkSession :=
  if s.locked then (some "Cannot modify a locked session", s)
  else if s.status ≠ SessionStatus.completed then
    (some "Can only approve completed sessions", s)
  else
    (none, { s with status := SessionStatus.approved,
                    approved_at := some now,
                    approved_by := some supervisor_id,
                    locked := true })

/-- `reject` (entities.py lines 167-186). -/
def reject (supervisor_id : Nat) (reason : String) (s : WorkSession) :
    Option String × WorkSession :=
  if s.locked then (some "Cannot modify a locked session", s)
  else if s.status ≠ SessionStatus.completed then
    (some "Can only reject completed sessions", s)
  else if pyStripEmpty reason then
    (some "Rejection reason is required", s)
  else
    (none, { s with status := SessionStatus.rejected,
                    rejection_reason := some reason,
                    approved_by := some supervisor_id,
                    locked := true })

/-- The rewrite an override operation applies to a check: result becomes
`override` and both override fields are set (entities.py lines 216-218
and 234-236). -/
def applyOverride (reason : String) (supervisor_id : Nat)
    (c : SafetyCheck) : SafetyCheck :=
  { c with result := CheckResult.override,
           override_reason := some reason,
           override_by := some supervisor_id }

/-- The `for check in self.checks ... break` search of `override_check`:
rewrite the first check whose id matches, or `none` when no check
matches. -/
def overrideFirst (check_id : Nat) (reason : String) (supervisor_id : Nat) :
    List SafetyCheck → Option (List SafetyCheck)
  | [] => none
  | c :: rest =>
    if c.id = check_id then some (applyOverride reason supervisor_id c :: rest)
    else (overrideFirst check_id reason supervisor_id rest).map
      (fun cs => c :: cs)

/-- `override_check` (entities.py lines 188-218). -/
def override_check (check_id : Nat) (reason : String) (supervisor_id : Nat)
    (s : WorkSession) : Option String × WorkSession :=
  if s.locked then (some "Cannot modify a locked session", s)
  else if pyStripEmpty reason then (some "Override reason is required", s)
  else
    match overrideFirst check_id reason supervisor_id s.checks with
    | none =>
      (some ("Check " ++ toString check_id ++ " not found in session"), s)
    | some cs => (none, { s with checks := cs })

/-- Rewrite the last element of a list (the `self.checks[-1]` mutation of
`override_last_check`). -/
def updateLast (f : SafetyCheck → SafetyCheck) :
    List SafetyCheck → List SafetyCheck
  | [] => []
  | [c] => [f c]
  | c :: c2 :: rest => c :: updateLast f (c2 :: rest)

/-- `override_last_check` (entities.py lines 220-236). -/
def override_last_check (reason : String) (supervisor_id : Nat)
    (s : WorkSession) : Option String × WorkSession :=
  if s.locked then (some "Cannot modify a locked session", s)
  else if s.checks.isEmpty then (some "No checks to override", s)
  else if pyStripEmpty reason then (some "Override reason is required", s)
  else
    let cs := updateLast (applyOverride reason supervisor_id) s.checks
    (none, { s with checks := cs })

/-- Modelled from the spec: the domain method `WorkSession.pause` is
called by `PauseSessionUseCase` and exercised by
`tests/domain/test_work_session.py` but its body is not part of the
source snapshot.  Spec state table: legal from `in_progress`, guarded by
the locked check first; effect `status=paused, paused_at=now`.  The guard
messages are the ones the repository's own tests assert. -/
def pause (now : Nat) (s : WorkSession) : Option String × WorkSession :=
  if s.locked then (some "Cannot modify a locked session", s)
  else if s.status ≠ SessionStatus.in_progress then
    (some "Can only pause in-progress sessions", s)
  else
    (none, { s with status := SessionStatus.paused, paused_at := some now })

/-- Modelled from the spec: the domain method `WorkSession.resume` is
called by `ResumeSessionUseCase` and exercised by the domain tests but
its body is not part of the source snapshot.  Spec state table: legal
from `paused`, locked check first; effect `status=in_progress` with
`paused_at` left untouched. -/
def resume (s : WorkSession) : Option String × WorkSession :=
  if s.locked then (some "Cannot modify a locked session", s)
  else if s.status ≠ SessionStatus.paused then
    (some "Only paused sessions can be resumed", s)
  else
    (none, { s with status := SessionStatus.in_progress })

/-- Modelled from the spec: the domain method `WorkSession.abort` is
called by `AbortSessionUseCase` and exercised by the domain tests but its
body is not part of the source snapshot.  Spec state table: guarded by
the locked check first, then by `status not in
\x7bcompleted, approved, rejected\x7d`; effect `status=aborted,
aborted_at=now, abort_reason=reason` (reason may be absent). -/
def abort (now : Nat) (reason : Option String) (s : WorkSession) :
    Option String × WorkSession :=
  if s.locked then (some "Cannot modify a locked session", s)
  else if s.status = SessionStatus.completed ∨
      s.status = SessionStatus.approved ∨
      s.status = SessionStatus.rejected then
    (some "Cannot abort a completed session", s)
  else
    (none, { s with status := SessionStatus.aborted,
                    aborted_at := some now,
                    abort_reason := reason })

end WorkSession

/-- Descending insertion of a session into a list ordered by
`started_at` descending (the effect of `order_by(started_at.desc())`). -/
def insertByStartedAtDesc (x : WorkSession) :
    List WorkSession → List WorkSession
  | [] => [x]
  | y :: rest =>
    if x.started_at > y.started_at then x :: y :: rest
    else y :: insertByStartedAtDesc x rest

/-- Sort a list of sessions by `started_at` descending. -/
def sortByStartedAtDesc : List WorkSession → List WorkSession
  | [] => []
  | x :: rest => insertByStartedAtDesc x (sortByStartedAtDesc rest)

/-- SQLAlchemy `Result.scalar_one_or_none`: `none` on zero rows, the row
on exactly one, and a raised `MultipleResultsFound` on two or more. -/
def scalar_one_or_none : List WorkSession → Except String (Option WorkSession)
  | [] => .ok none
  | [x] => .ok (some x)
  | _ :: _ :: _ => .error "MultipleResultsFound"

/-- `SQLAlchemyWorkSessionRepository.get_current_for_worker`
(session_repository.py lines 98-122): select the sessions of the worker
with status `in_progress`, ordered by `started_at` descending, then
`result.unique().scalar_one_or_none()`.  `rows` is the table contents;
`unique()` only deduplicates the join rows of one session, so distinct
matching sessions remain distinct rows. -/
def get_current_for_worker (rows : List WorkSession) (worker_id : Nat) :
    Except String (Option WorkSession) :=
  scalar_one_or_none (sortByStartedAtDesc (rows.filter
    (fun r => decide (r.worker_id = worker_id ∧
      r.status = SessionStatus.in_progress))))

/-- One invocation of a mutating `WorkSession` method, with its
arguments. -/
inductive SessionOp where
  | pause (now : Nat)
  | resume
  | abort (now : Nat) (reason : Option String)
  | add_check (now cid step_id : Nat) (result : CheckResult)
      (feedback_text : String) (feedback_audio_url : Option String)
      (confidence_score : Option Rat) (needs_review : Bool)
  | advance_to_next_step (now : Nat) (next_step_id : Option Nat)
  | complete (now : Nat)
  | approve (now supervisor_id : Nat)
  | reject (supervisor_id : Nat) (reason : String)
  | override_check (check_id : Nat) (reason : String) (supervisor_id : Nat)
  | override_last_check (reason : String) (supervisor_id : Nat)
deriving DecidableEq, Repr

/-- Dispatch one operation to the corresponding method. -/
def applyOp : SessionOp → WorkSession → Option String × WorkSession
  | .pause now, s => WorkSession.pause now s
  | .resume, s => WorkSession.resume s
  | .abort now reason, s => WorkSession.abort now reason s
  | .add_check now cid step_id result fb au conf rv, s =>
    WorkSession.add_check now cid step_id result fb au conf rv s
  | .advance_to_next_step now next, s =>
    WorkSession.advance_to_next_step now next s
  | .complete now, s => WorkSession.complete now s
  | .approve now sup, s => WorkSession.approve now sup s
  | .reject sup reason, s => WorkSession.reject sup reason s
  | .override_check cid reason sup, s =>
    WorkSession.override_check cid reason sup s
  | .override_last_check reason sup, s =>
    WorkSession.override_last_check reason sup s

/-- Run a sequence of operations, always continuing on the resulting
state (a raising call leaves the state it produced). -/
def applyOps (ops : List SessionOp) (s : WorkSession) : WorkSession :=
  ops.foldl (fun st op => (applyOp op st).2) s

/-- Is the operation an `add_check`? -/
def isAddOp : SessionOp → Bool
  | .add_check .. => true
  | _ => false

/-- Is the operation one of the two override operations? -/
def isOverrideOp : SessionOp → Bool
  | .override_check .. => true
  | .override_last_check .. => true
  | _ => false

/-- The fields of a `SafetyCheck` that no operation may ever rewrite:
everything except `result`, `override_reason` and `override_by`. -/
def checkCore (c : SafetyCheck) :
    Nat × Nat × String × Option String × Option Rat × Bool × Nat :=
  (c.id, c.step_id, c.feedback_text, c.feedback_audio_url,
   c.confidence_score, c.needs_review, c.checked_at)

/-- `old` is preserved inside `new`: no entry was removed, and every
entry still sits at its original position with its immutable fields
unchanged. -/
def coresPreserved (old new : List SafetyCheck) : Prop :=
  old.length ≤ new.length ∧
  ∀ i, i < old.length →
    (old.get? i).map checkCore = (new.get? i).map checkCore

/-! Concrete fixtures used by the witness theorems. -/

/-- A freshly started session (status `in_progress`, not locked). -/
def baseSession : WorkSession :=
  { sop_id := 1, worker_id := 2, id := 3,
    status := SessionStatus.in_progress, current_step_id := some 100,
    started_at := 5, completed_at := none, approved_at := none,
    approved_by := none, locked := false, rejection_reason := none,
    checks := [], paused_at := none, aborted_at := none,
    abort_reason := none }

/-- A locked but otherwise fresh session. -/
def lockedSession : WorkSession := { baseSession with locked := true }

/-- A paused session. -/
def pausedSession : WorkSession :=
  { baseSession with status := SessionStatus.paused, paused_at := some 6 }

/-- A completed session awaiting review. -/
def completedSession : WorkSession :=
  { baseSession with status := SessionStatus.completed,
                     completed_at := some 7, current_step_id := none }

/-- The session produced by `approve 8 11 completedSession`. -/
def approvedSession : WorkSession :=
  { completedSession with status := SessionStatus.approved,
                          approved_at := some 8, approved_by := some 11,
                          locked := true }

/-- A passing check recorded at step 100. -/
def sampleCheck1 : SafetyCheck :=
  { step_id := 100, result := CheckResult.pass, feedback_text := "ok",
    id := 201, feedback_audio_url := none, confidence_score := none,
    needs_review := false, checked_at := 10, override_reason := none,
    override_by := none }

/-- A failing check recorded at step 101. -/
def sampleCheck2 : SafetyCheck :=
  { step_id := 101, result := CheckResult.fail, feedback_text := "bad",
    id := 202, feedback_audio_url := none, confidence_score := none,
    needs_review := true, checked_at := 11, override_reason := none,
    override_by := none }

/-- An in-progress session carrying two checks. -/
def sessionWithChecks : WorkSession :=
  { baseSession with checks := [sampleCheck1, sampleCheck2] }

/-- First of two in-progress sessions of worker 7. -/
def sessA : WorkSession :=
  { baseSession with id := 31, worker_id := 7, started_at := 50 }

/-- Second in-progress session of worker 7, started later. -/
def sessB : WorkSession :=
  { baseSession with id := 32, worker_id := 7, started_at := 60 }

/-! Helper lemmas about `coresPreserved` and the list rewrites. -/

theorem coresPreserved_refl (l : List SafetyCheck) : coresPreserved l l :=
  ⟨le_refl _, fun _ _ => rfl⟩

theorem coresPreserved_trans {a b c : List SafetyCheck}
    (h1 : coresPreserved a b) (h2 : coresPreserved b c) :
    coresPreserved a c :=
  ⟨le_trans h1.1 h2.1, fun i hi =>
    (h1.2 i hi).trans (h2.2 i (lt_of_lt_of_le hi h1.1))⟩

theorem coresPreserved_append (l : List SafetyCheck) (c : SafetyCheck) :
    coresPreserved l (l ++ [c]) := by
  refine ⟨by simp, fun i hi => ?_⟩
  rw [List.get?_append hi]

theorem checkCore_applyOverride (reason : String) (sup : Nat)
    (c : SafetyCheck) :
    checkCore (WorkSession.applyOverride reason sup c) = checkCore c := rfl

theorem overrideFirst_spec (cid : Nat) (reason : String) (sup : Nat) :
    ∀ (l l' : List SafetyCheck),
      WorkSession.overrideFirst cid reason sup l = some l' →
      l'.length = l.length ∧ coresPreserved l l' := by
  intro l
  induction l with
  | nil => intro l' h; simp [WorkSession.overrideFirst] at h
  | cons c rest ih =>
    intro l' h
    unfold WorkSession.overrideFirst at h
    by_cases hc : c.id = cid
    · rw [if_pos hc] at h
      injection h with h2
      subst h2
      refine ⟨by simp, by simp, fun i hi => ?_⟩
      cases i with
      | zero => simp [checkCore_applyOverride]
      | succ j => rfl
    · rw [if_neg hc] at h
      rcases Option.map_eq_some'.mp h with ⟨cs, hcs, rfl⟩
      rcases ih cs hcs with ⟨hlen, hpre⟩
      refine ⟨by simp [hlen], by simp [hpre.1], fun i hi => ?_⟩
      cases i with
      | zero => rfl
      | succ j =>
        have hj : j < rest.length := by
          simpa [Nat.succ_lt_succ_iff] using hi
        simpa using hpre.2 j hj

theorem updateLast_spec (f : SafetyCheck → SafetyCheck)
    (hf : ∀ c, checkCore (f c) = checkCore c) :
    ∀ l : List SafetyCheck,
      (WorkSession.updateLast f l).length = l.length ∧
      coresPreserved l (WorkSession.updateLast f l) := by
  intro l
  induction l with
  | nil => exact ⟨rfl, coresPreserved_refl _⟩
  | cons c rest ih =>
    cases rest with
    | nil =>
      refine ⟨rfl, le_refl _, fun i hi => ?_⟩
      cases i with
      | zero => simp [WorkSession.updateLast, hf c]
      | succ j => simp at hi
    | cons c2 rest2 =>
      rcases ih with ⟨hlen, hpre⟩
      refine ⟨?_, ?_, fun i hi => ?_⟩
      · simp [WorkSession.updateLast, hlen]
      · simp [WorkSession.updateLast, hlen]
      · cases i with
        | zero => rfl
        | succ j =>
          have hj : j < (c2 :: rest2).length := by
            simpa [Nat.succ_lt_succ_iff] using hi
          simpa [WorkSession.updateLast] using hpre.2 j hj

/-! Per-operation facts about the `checks` list. -/

theorem pause_checks (now : Nat) (s : WorkSession) :
    ((WorkSession.pause now s).2).checks = s.checks := by
  unfold WorkSession.pause
  split
  · rfl
  · split <;> rfl

theorem resume_checks (s : WorkSession) :
    ((WorkSession.resume s).2).checks = s.checks := by
  unfold WorkSession.resume
  split
  · rfl
  · split <;> rfl

theorem abort_checks (now : Nat) (reason : Option String) (s : WorkSession) :
    ((WorkSession.abort now reason s).2).checks = s.checks := by
  unfold WorkSession.abort
  split
  · rfl
  · split <;> rfl

theorem complete_checks (now : Nat) (s : WorkSession) :
    ((WorkSession.complete now s).2).checks = s.checks := by
  unfold WorkSession.complete
  split
  · rfl
  · split <;> rfl

theorem advance_checks (now : Nat) (next : Option Nat) (s : WorkSession) :
    ((WorkSession.advance_to_next_step now next s).2).checks = s.checks := by
  unfold WorkSession.advance_to_next_step
  split
  · rfl
  · split
    · rfl
    · cases next with
      | none => exact complete_checks now { s with current_step_id := none }
      | some k => rfl

theorem approve_checks (now sup : Nat) (s : WorkSession) :
    ((WorkSession.approve now sup s).2).checks = s.checks := by
  unfold WorkSession.approve
  split
  · rfl
  · split <;> rfl

theorem reject_checks (sup : Nat) (reason : String) (s : WorkSession) :
    ((WorkSession.reject sup reason s).2).checks = s.checks := by
  unfold WorkSession.reject
  split
  · rfl
  · split
    · rfl
    · split <;> rfl

theorem add_check_coresPreserved (now cid step_id : Nat)
    (result : CheckResult) (fb : String) (au : Option String)
    (conf : Option Rat) (rv : Bool) (s : WorkSession) :
    coresPreserved s.checks
      ((WorkSession.add_check now cid step_id result fb au conf rv s).2).checks := by
  unfold WorkSession.add_check
  split
  · exact coresPreserved_refl _
  · split
    · exact coresPreserved_refl _
    · split
      · exact coresPreserved_refl _
      · exact coresPreserved_append _ _

theorem override_check_spec (cid : Nat) (reason : String) (sup : Nat)
    (s : WorkSession) :
    ((WorkSession.override_check cid reason sup s).2).checks.length =
      s.checks.length ∧
    coresPreserved s.checks
      ((WorkSession.override_check cid reason sup s).2).checks := by
  unfold WorkSession.override_check
  split
  · exact ⟨rfl, coresPreserved_refl _⟩
  · split
    · exact ⟨rfl, coresPreserved_refl _⟩
    · rcases hov : WorkSession.overrideFirst cid reason sup s.checks with _ | cs
      · exact ⟨rfl, coresPreserved_refl _⟩
      · exact ⟨(overrideFirst_spec cid reason sup s.checks cs hov).1,
               (overrideFirst_spec cid reason sup s.checks cs hov).2⟩

theorem override_last_check_spec (reason : String) (sup : Nat)
    (s : WorkSession) :
    ((WorkSession.override_last_check reason sup s).2).checks.length =
      s.checks.length ∧
    coresPreserved s.checks
      ((WorkSession.override_last_check reason sup s).2).checks := by
  unfold WorkSession.override_last_check
  split
  · exact ⟨rfl, coresPreserved_refl _⟩
  · split
    · exact ⟨rfl, coresPreserved_refl _⟩
    · split
      · exact ⟨rfl, coresPreserved_refl _⟩
      · exact ⟨(updateLast_spec (WorkSession.applyOverride reason sup)
                  (fun c => rfl) s.checks).1,
               (updateLast_spec (WorkSession.applyOverride reason sup)
                  (fun c => rfl) s.checks).2⟩

theorem applyOp_coresPreserved (op : SessionOp) (s : WorkSession) :
    coresPreserved s.checks ((applyOp op s).2).checks := by
  cases op with
  | pause now =>
    simp only [applyOp, pause_checks]
    exact coresPreserved_refl _
  | resume =>
    simp only [applyOp, resume_checks]
    exact coresPreserved_refl _
  | abort now reason =>
    simp only [applyOp, abort_checks]
    exact coresPreserved_refl _
  | add_check now cid step_id result fb au conf rv =>
    exact add_check_coresPreserved now cid step_id result fb au conf rv s
  | advance_to_next_step now next =>
    simp only [applyOp, advance_checks]
    exact coresPreserved_refl _
  | complete now =>
    simp only [applyOp, complete_checks]
    exact coresPreserved_refl _
  | approve now sup =>
    simp only [applyOp, approve_checks]
    exact coresPreserved_refl _
  | reject sup reason =>
    simp only [applyOp, reject_checks]
    exact coresPreserved_refl _
  | override_check cid reason sup =>
    exact (override_check_spec cid reason sup s).2
  | override_last_check reason sup =>
    exact (override_last_check_spec reason sup s).2

theorem applyOps_coresPreserved (ops : List SessionOp) :
    ∀ s : WorkSession, coresPreserved s.checks (applyOps ops s).checks := by
  induction ops with
  | nil => intro s; exact coresPreserved_refl _
  | cons op rest ih =>
    intro s
    exact coresPreserved_trans (applyOp_coresPreserved op s)
      (ih ((applyOp op s).2))

/-- `SafetyCheck.make` with result `override` and both override fields at
their `add_check` defaults (`None`) always raises. -/
theorem make_override_arg_none_fails (step_id : Nat) (fb : String)
    (cid : Nat) (au : Option String) (conf : Option Rat) (rv : Bool)
    (t : Nat) :
    ∃ msg, SafetyCheck.make step_id CheckResult.override fb cid au conf rv
      t none none = Except.error msg := by
  unfold SafetyCheck.make
  split
  · exact ⟨_, rfl⟩
  · split
    · exact ⟨_, rfl⟩
    · split
      · exact ⟨_, rfl⟩
      · next h3 => exact absurd ⟨rfl, rfl⟩ h3

/-! Claim theorems. -/

/-- C1: once a WorkSession has locked=true, every mutating operation
(pause, resume, abort, add_check, advance_to_next_step, complete,
approve, reject, override_check, override_last_check) raises the
locked-guard message and leaves the aggregate unchanged; and after a
successful approve by supervisor supA, a second approve fails with the
locked-guard message while approved_by remains supA. -/
theorem locked_session_immutable :
    (∀ s : WorkSession, s.locked = true →
      (∀ now, WorkSession.pause now s =
        (some "Cannot modify a locked session", s)) ∧
      WorkSession.resume s = (some "Cannot modify a locked session", s) ∧
      (∀ now reason, WorkSession.abort now reason s =
        (some "Cannot modify a locked session", s)) ∧
      (∀ now cid step_id result fb au conf rv,
        WorkSession.add_check now cid step_id result fb au conf rv s =
          (some "Cannot modify a locked session", s)) ∧
      (∀ now next, WorkSession.advance_to_next_step now next s =
        (some "Cannot modify a locked session", s)) ∧
      (∀ now, WorkSession.complete now s =
        (some "Cannot modify a locked session", s)) ∧
      (∀ now sup, WorkSession.approve now sup s =
        (some "Cannot modify a locked session", s)) ∧
      (∀ sup reason, WorkSession.reject sup reason s =
        (some "Cannot modify a locked session", s)) ∧
      (∀ cid reason sup, WorkSession.override_check cid reason sup s =
        (some "Cannot modify a locked session", s)) ∧
      (∀ reason sup, WorkSession.override_last_check reason sup s =
        (some "Cannot modify a locked session", s))) ∧
    (∀ (s s2 : WorkSession) (now now2 supA supB : Nat),
      WorkSession.approve now supA s = (none, s2) →
      WorkSession.approve now2 supB s2 =
        (some "Cannot modify a locked session", s2) ∧
      s2.approved_by = some supA) := by
  constructor
  · intro s h
    refine ⟨fun now => ?_, ?_, fun now reason => ?_,
      fun now cid step_id result fb au conf rv => ?_, fun now next => ?_,
      fun now => ?_, fun now sup => ?_, fun sup reason => ?_,
      fun cid reason sup => ?_, fun reason sup => ?_⟩ <;>
      simp [WorkSession.pause, WorkSession.resume, WorkSession.abort,
        WorkSession.add_check, WorkSession.advance_to_next_step,
        WorkSession.complete, WorkSession.approve, WorkSession.reject,
        WorkSession.override_check, WorkSession.override_last_check, h]
  · intro s s2 now now2 supA supB happ
    unfold WorkSession.approve at happ
    split at happ
    · simp [Prod.ext_iff] at happ
    · split at happ
      · simp [Prod.ext_iff] at happ
      · have hs2 := congrArg Prod.snd happ
        dsimp only at hs2
        subst hs2
        exact ⟨by simp [WorkSession.approve], rfl⟩

/-- Witness for C1: a locked session rejects pause, and the session
approved by supervisor 11 rejects a second approve by supervisor 22 while
approved_by stays 11. -/
theorem locked_session_immutable_witness :
    WorkSession.pause 3 lockedSession =
      (some "Cannot modify a locked session", lockedSession) ∧
    WorkSession.approve 9 22 approvedSession =
      (some "Cannot modify a locked session", approvedSession) ∧
    approvedSession.approved_by = some 11 := by
  have happ : WorkSession.approve 8 11 completedSession =
      (none, approvedSession) := rfl
  have h2 := locked_session_immutable.2 completedSession approvedSession
    8 9 11 22 happ
  exact ⟨(locked_session_immutable.1 lockedSession rfl).1 3, h2.1, h2.2⟩

/-- C2: on a non-locked session, pause succeeds exactly from in_progress
(setting status=paused and paused_at=now) and resume succeeds exactly
from paused (restoring status=in_progress and leaving paused_at
untouched); from any other status each fails with its state-guard
message and leaves the session unchanged. -/
theorem pause_resume_correct :
    ∀ (s : WorkSession) (now : Nat), s.locked = false →
      (s.status = SessionStatus.in_progress →
        WorkSession.pause now s =
          (none, { s with status := SessionStatus.paused,
                          paused_at := some now })) ∧
      (s.status ≠ SessionStatus.in_progress →
        WorkSession.pause now s =
          (some "Can only pause in-progress sessions", s)) ∧
      (s.status = SessionStatus.paused →
        WorkSession.resume s =
          (none, { s with status := SessionStatus.in_progress })) ∧
      (s.status ≠ SessionStatus.paused →
        WorkSession.resume s =
          (some "Only paused sessions can be resumed", s)) := by
  intro s now hl
  refine ⟨fun h => ?_, fun h => ?_, fun h => ?_, fun h => ?_⟩ <;>
    simp [WorkSession.pause, WorkSession.resume, hl, h]

/-- Witness for C2: pausing the fresh in-progress session yields the
paused session with paused_at=6, and resuming it restores in_progress. -/
theorem pause_resume_correct_witness :
    WorkSession.pause 6 baseSession = (none, pausedSession) ∧
    WorkSession.resume pausedSession =
      (none, { pausedSession with status := SessionStatus.in_progress }) := by
  exact ⟨(pause_resume_correct baseSession 6 rfl).1 rfl,
         (pause_resume_correct pausedSession 0 rfl).2.2.1 rfl⟩

/-- C3: on a non-locked session whose status is in_progress or paused,
abort succeeds, setting status=aborted, aborted_at=now and
abort_reason=reason (possibly absent) while leaving the checks list
unchanged; from completed, approved or rejected it fails and leaves the
session unchanged. -/
theorem abort_correct :
    ∀ (s : WorkSession) (now : Nat) (reason : Option String),
      s.locked = false →
      ((s.status = SessionStatus.in_progress ∨
        s.status = SessionStatus.paused) →
        WorkSession.abort now reason s =
          (none, { s with status := SessionStatus.aborted,
                          aborted_at := some now,
                          abort_reason := reason }) ∧
        ((WorkSession.abort now reason s).2).checks = s.checks) ∧
      ((s.status = SessionStatus.completed ∨
        s.status = SessionStatus.approved ∨
        s.status = SessionStatus.rejected) →
        WorkSession.abort now reason s =
          (some "Cannot abort a completed session", s)) := by
  intro s now reason hl
  constructor
  · intro h
    rcases h with h | h <;>
      exact ⟨by simp [WorkSession.abort, hl, h],
             by simp [WorkSession.abort, hl, h]⟩
  · intro h
    rcases h with h | h | h <;> simp [WorkSession.abort, hl, h]

/-- Witness for C3: aborting the in-progress session that carries two
checks sets the abort fields and keeps both checks. -/
theorem abort_correct_witness :
    WorkSession.abort 9 (some "stop") sessionWithChecks =
      (none, { sessionWithChecks with status := SessionStatus.aborted,
                                      aborted_at := some 9,
                                      abort_reason := some "stop" }) ∧
    ((WorkSession.abort 9 (some "stop") sessionWithChecks).2).checks =
      [sampleCheck1, sampleCheck2] := by
  have h := (abort_correct sessionWithChecks 9 (some "stop") rfl).1
    (Or.inl rfl)
  exact ⟨h.1, h.2⟩

/-- C4: over any sequence of operations, previously present SafetyChecks
are never removed and keep their position and their step_id,
feedback_text, checked_at (and id, audio url, confidence, needs_review);
operations other than add_check and the overrides leave the checks list
untouched; the override operations keep the list length (they only
rewrite result/override fields, by `coresPreserved`); a successful
add_check appends exactly one new entry at the end. -/
theorem audit_trail_append_only :
    (∀ (ops : List SessionOp) (s : WorkSession),
      coresPreserved s.checks (applyOps ops s).checks) ∧
    (∀ (op : SessionOp) (s : WorkSession),
      isAddOp op = false → isOverrideOp op = false →
      ((applyOp op s).2).checks = s.checks) ∧
    (∀ (op : SessionOp) (s : WorkSession), isOverrideOp op = true →
      ((applyOp op s).2).checks.length = s.checks.length ∧
      coresPreserved s.checks ((applyOp op s).2).checks) ∧
    (∀ (now cid step_id : Nat) (result : CheckResult) (fb : String)
      (au : Option String) (conf : Option Rat) (rv : Bool)
      (s : WorkSession),
      (WorkSession.add_check now cid step_id result fb au conf rv s).1 =
        none →
      ∃ c, (WorkSession.add_check now cid step_id result fb au conf rv
        s).2 = { s with checks := s.checks ++ [c] }) := by
  refine ⟨fun ops s => applyOps_coresPreserved ops s, ?_, ?_, ?_⟩
  · intro op s hadd hov
    cases op with
    | pause now => exact pause_checks now s
    | resume => exact resume_checks s
    | abort now reason => exact abort_checks now reason s
    | add_check a b c d e f g h => simp [isAddOp] at hadd
    | advance_to_next_step now next => exact advance_checks now next s
    | complete now => exact complete_checks now s
    | approve now sup => exact approve_checks now sup s
    | reject sup reason => exact reject_checks sup reason s
    | override_check a b c => simp [isOverrideOp] at hov
    | override_last_check a b => simp [isOverrideOp] at hov
  · intro op s hov
    cases op with
    | pause now => simp [isOverrideOp] at hov
    | resume => simp [isOverrideOp] at hov
    | abort now reason => simp [isOverrideOp] at hov
    | add_check a b c d e f g h => simp [isOverrideOp] at hov
    | advance_to_next_step now next => simp [isOverrideOp] at hov
    | complete now => simp [isOverrideOp] at hov
    | approve now sup => simp [isOverrideOp] at hov
    | reject sup reason => simp [isOverrideOp] at hov
    | override_check cid reason sup => exact override_check_spec cid reason sup s
    | override_last_check reason sup => exact override_last_check_spec reason sup s
  · intro now cid step_id result fb au conf rv s h
    unfold WorkSession.add_check at h ⊢
    by_cases hl : s.locked = true
    · rw [if_pos hl] at h
      simp at h
    · rw [if_neg hl] at h ⊢
      by_cases hs : s.status ≠ SessionStatus.in_progress
      · rw [if_pos hs] at h
        simp at h
      · rw [if_neg hs] at h ⊢
        rcases hmk : SafetyCheck.make step_id result fb cid au conf rv
            now none none with e | c
        · rw [hmk] at h
          simp at h
        · exact ⟨c, rfl⟩

/-- Witness for C4: a pause/resume cycle preserves the two recorded
checks, pause alone leaves the list untouched, override_last_check keeps
the length while preserving cores, and a successful add_check appends one
entry. -/
theorem audit_trail_append_only_witness :
    coresPreserved sessionWithChecks.checks
      (applyOps [SessionOp.pause 7, SessionOp.resume]
        sessionWithChecks).checks ∧
    ((applyOp (SessionOp.pause 7) sessionWithChecks).2).checks =
      sessionWithChecks.checks ∧
    ((applyOp (SessionOp.override_last_check "fix" 11)
      sessionWithChecks).2).checks.length =
      sessionWithChecks.checks.length ∧
    (∃ c, (WorkSession.add_check 12 205 100 CheckResult.pass "good" none
      none false baseSession).2 =
      { baseSession with checks := baseSession.checks ++ [c] }) := by
  exact ⟨audit_trail_append_only.1 [SessionOp.pause 7, SessionOp.resume]
           sessionWithChecks,
         audit_trail_append_only.2.1 (SessionOp.pause 7) sessionWithChecks
           rfl rfl,
         (audit_trail_append_only.2.2.1
           (SessionOp.override_last_check "fix" 11) sessionWithChecks
           rfl).1,
         audit_trail_append_only.2.2.2 12 205 100 CheckResult.pass "good"
           none none false baseSession rfl⟩

/-- C5 counterexample: on a fresh in-progress session the single call
advance_to_next_step(None) succeeds and completes the session, but the
stated equivalent composite — advance_to_next_step(None) followed
immediately by complete() — is not equivalent as a program: its trailing
complete() raises the state-guard failure because the session is no
longer in progress. -/
theorem advance_none_composite_not_equivalent :
    (WorkSession.advance_to_next_step 9 none baseSession).1 = none ∧
    ((WorkSession.advance_to_next_step 9 none baseSession).2).status =
      SessionStatus.completed ∧
    (WorkSession.complete 10
      ((WorkSession.advance_to_next_step 9 none baseSession).2)).1 =
      some "Can only complete in-progress sessions" := by
  exact ⟨rfl, rfl, rfl⟩

/-- C5 amended: on a non-locked in-progress session a single
advance_to_next_step(None) call atomically sets current_step_id=None,
status=completed and completed_at=now; following it with complete()
reaches the same final state, but that trailing complete() itself fails
with the state-guard message while leaving the state unchanged (so the
two programs agree on the final state though not on the raised error). -/
theorem advance_none_completes :
    ∀ (s : WorkSession) (now now2 : Nat), s.locked = false →
      s.status = SessionStatus.in_progress →
      WorkSession.advance_to_next_step now none s =
        (none, { s with current_step_id := none,
                        status := SessionStatus.completed,
                        completed_at := some now }) ∧
      (WorkSession.complete now2
        ((WorkSession.advance_to_next_step now none s).2)).2 =
        (WorkSession.advance_to_next_step now none s).2 ∧
      (WorkSession.complete now2
        ((WorkSession.advance_to_next_step now none s).2)).1 =
        some "Can only complete in-progress sessions" := by
  intro s now now2 hl hs
  have h1 : WorkSession.advance_to_next_step now none s =
      (none, { s with current_step_id := none,
                      status := SessionStatus.completed,
                      completed_at := some now }) := by
    simp [WorkSession.advance_to_next_step, WorkSession.complete, hl, hs]
  refine ⟨h1, ?_, ?_⟩ <;> rw [h1] <;> simp [WorkSession.complete, hl]

/-- Witness for C5 amended: the fresh session advanced past its last step
at time 9 is completed with completed_at=9, and the redundant trailing
complete() leaves that state unchanged. -/
theorem advance_none_completes_witness :
    WorkSession.advance_to_next_step 9 none baseSession =
      (none, { baseSession with current_step_id := none,
                                status := SessionStatus.completed,
                                completed_at := some 9 }) ∧
    (WorkSession.complete 10
      ((WorkSession.advance_to_next_step 9 none baseSession).2)).2 =
      (WorkSession.advance_to_next_step 9 none baseSession).2 := by
  exact ⟨(advance_none_completes baseSession 9 10 rfl rfl).1,
         (advance_none_completes baseSession 9 10 rfl rfl).2.1⟩

/-- C6: approve succeeds exactly when the session is not locked and its
status is completed, in which case it sets status=approved,
approved_at=now, approved_by=supervisor and locked=true; whenever it
fails (locked or any other status, including in_progress) it changes no
field. -/
theorem approve_correct :
    ∀ (s : WorkSession) (now sup : Nat),
      ((WorkSession.approve now sup s).1 = none ↔
        (s.locked = false ∧ s.status = SessionStatus.completed)) ∧
      (s.locked = false → s.status = SessionStatus.completed →
        WorkSession.approve now sup s =
          (none, { s with status := SessionStatus.approved,
                          approved_at := some now,
                          approved_by := some sup,
                          locked := true })) ∧
      ((WorkSession.approve now sup s).1 ≠ none →
        (WorkSession.approve now sup s).2 = s) := by
  intro s now sup
  by_cases hl : s.locked = true
  · refine ⟨?_, ?_, ?_⟩
    · simp [WorkSession.approve, hl]
    · intro h1 _
      rw [hl] at h1
      exact absurd h1 (by decide)
    · intro _
      simp [WorkSession.approve, hl]
  · have hl2 : s.locked = false := by simpa using hl
    by_cases hs : s.status = SessionStatus.completed
    · refine ⟨?_, fun _ _ => ?_, ?_⟩
      · simp [WorkSession.approve, hl2, hs]
      · simp [WorkSession.approve, hl2, hs]
      · intro h
        simp [WorkSession.approve, hl2, hs] at h
    · refine ⟨?_, fun _ h2 => absurd h2 hs, ?_⟩
      · simp [WorkSession.approve, hl2, hs]
      · intro _
        simp [WorkSession.approve, hl2, hs]

/-- Witness for C6: approving the completed session at time 8 by
supervisor 11 yields the approved, locked session; approving the fresh
in-progress session fails and changes nothing. -/
theorem approve_correct_witness :
    WorkSession.approve 8 11 completedSession = (none, approvedSession) ∧
    (WorkSession.approve 8 11 baseSession).2 = baseSession := by
  exact ⟨(approve_correct completedSession 8 11).2.1 rfl rfl,
         (approve_correct baseSession 8 11).2.2 (by decide)⟩

/-- C7: on a non-locked completed session, reject fails with the
validation message and changes no field whenever the reason is empty or
whitespace-only, and succeeds for any other reason, setting
status=rejected, rejection_reason=reason, approved_by=supervisor and
locked=true. -/
theorem reject_correct :
    ∀ (s : WorkSession) (sup : Nat) (reason : String),
      s.locked = false → s.status = SessionStatus.completed →
      (pyStripEmpty reason = true →
        WorkSession.reject sup reason s =
          (some "Rejection reason is required", s)) ∧
      (pyStripEmpty reason = false →
        WorkSession.reject sup reason s =
          (none, { s with status := SessionStatus.rejected,
                          rejection_reason := some reason,
                          approved_by := some sup,
                          locked := true })) := by
  intro s sup reason hl hs
  refine ⟨fun h => ?_, fun h => ?_⟩ <;>
    simp [WorkSession.reject, hl, hs, h]

/-- Witness for C7: rejecting the completed session with an empty reason
fails and leaves it unchanged; rejecting with reason "bad form" succeeds,
locks the session and records the reason. -/
theorem reject_correct_witness :
    WorkSession.reject 11 "" completedSession =
      (some "Rejection reason is required", completedSession) ∧
    WorkSession.reject 11 "bad form" completedSession =
      (none, { completedSession with status := SessionStatus.rejected,
                                     rejection_reason := some "bad form",
                                     approved_by := some 11,
                                     locked := true }) := by
  exact ⟨(reject_correct completedSession 11 "" rfl rfl).1 rfl,
         (reject_correct completedSession 11 "bad form" rfl rfl).2
           (by decide)⟩



/-- C8: constructing a SafetyCheck with result=override fails whenever
override_reason or override_by is absent; with any other result,
construction succeeds regardless of the override fields provided the
feedback text is non-blank and the confidence score is in range — so the
two override fields are required together exactly for result=override.
The only mutation path to result=override (the override rewrite used by
override_check and override_last_check) always sets both fields. -/
theorem override_fields_required_iff :
    (∀ (step_id : Nat) (fb : String) (cid : Nat) (au : Option String)
      (conf : Option Rat) (rv : Bool) (t : Nat) (orr : Option String)
      (ob : Option Nat), (orr = none ∨ ob = none) →
      ∃ msg, SafetyCheck.make step_id CheckResult.override fb cid au conf
        rv t orr ob = Except.error msg) ∧
    (∀ (step_id : Nat) (result : CheckResult) (fb : String) (cid : Nat)
      (au : Option String) (conf : Option Rat) (rv : Bool) (t : Nat)
      (orr : Option String) (ob : Option Nat),
      result ≠ CheckResult.override → pyStripEmpty fb = false →
      confidence_out_of_range conf = false →
      SafetyCheck.make step_id result fb cid au conf rv t orr ob =
        Except.ok { step_id := step_id, result := result,
                    feedback_text := fb, id := cid,
                    feedback_audio_url := au, confidence_score := conf,
                    needs_review := rv, checked_at := t,
                    override_reason := orr, override_by := ob }) ∧
    (∀ (reason : String) (sup : Nat) (c : SafetyCheck),
      (WorkSession.applyOverride reason sup c).result =
        CheckResult.override ∧
      (WorkSession.applyOverride reason sup c).override_reason =
        some reason ∧
      (WorkSession.applyOverride reason sup c).override_by = some sup) := by
  refine ⟨?_, ?_, fun reason sup c => ⟨rfl, rfl, rfl⟩⟩
  · intro step_id fb cid au conf rv t orr ob horr
    unfold SafetyCheck.make
    split
    · exact ⟨_, rfl⟩
    · split
      · exact ⟨_, rfl⟩
      · split
        · exact ⟨_, rfl⟩
        · next h3 =>
          rcases horr with ho | ho
          · subst ho
            exact absurd ⟨rfl, rfl⟩ h3
          · split
            · exact ⟨_, rfl⟩
            · next h4 => exact absurd ⟨rfl, ho⟩ h4
  · intro step_id result fb cid au conf rv t orr ob hres hfb hconf
    simp [SafetyCheck.make, hres, hfb, hconf]

/-- Witness for C8: an override check built without its override fields
fails; a pass check built without them succeeds; the override rewrite by
supervisor 11 sets both fields. -/
theorem override_fields_required_iff_witness :
    (∃ msg, SafetyCheck.make 100 CheckResult.override "ok" 300 none none
      false 12 none none = Except.error msg) ∧
    SafetyCheck.make 100 CheckResult.pass "ok" 300 none none false 12
      none none =
      Except.ok { step_id := 100, result := CheckResult.pass,
                  feedback_text := "ok", id := 300,
                  feedback_audio_url := none, confidence_score := none,
                  needs_review := false, checked_at := 12,
                  override_reason := none, override_by := none } ∧
    (WorkSession.applyOverride "worn gauge" 11 sampleCheck1).override_by =
      some 11 := by
  exact ⟨override_fields_required_iff.1 100 "ok" 300 none none false 12
           none none (Or.inl rfl),
         override_fields_required_iff.2.1 100 CheckResult.pass "ok" 300
           none none false 12 none none (by decide) (by decide) rfl,
         (override_fields_required_iff.2.2 "worn gauge" 11
           sampleCheck1).2.2⟩

/-- C9: on the failing input — one worker with two in_progress sessions —
`get_current_for_worker` raises `MultipleResultsFound` instead of
returning the most recently started session, because the query ends in
`scalar_one_or_none`; with exactly one or zero matching sessions it
returns that session or None as specified. -/
theorem get_current_for_worker_multiple_raises :
    get_current_for_worker [sessA, sessB] 7 =
      Except.error "MultipleResultsFound" ∧
    get_current_for_worker [sessA] 7 = Except.ok (some sessA) ∧
    get_current_for_worker [completedSession] 2 = Except.ok none := by
  exact ⟨rfl, rfl, rfl⟩

/-- C10: on a non-locked in-progress session, add_check with
result=override always raises a validation failure (its SafetyCheck is
constructed with override_reason=None and override_by=None, violating the
override invariant) and leaves the session — in particular its checks
list — unchanged; consequently no successful add_check ever has
result=override, so override checks arise only from the override
operations. -/
theorem add_check_override_always_fails :
    (∀ (s : WorkSession) (now cid step_id : Nat) (fb : String)
      (au : Option String) (conf : Option Rat) (rv : Bool),
      s.locked = false → s.status = SessionStatus.in_progress →
      (∃ msg, (WorkSession.add_check now cid step_id CheckResult.override
        fb au conf rv s).1 = some msg) ∧
      (WorkSession.add_check now cid step_id CheckResult.override fb au
        conf rv s).2 = s) ∧
    (∀ (s : WorkSession) (now cid step_id : Nat) (result : CheckResult)
      (fb : String) (au : Option String) (conf : Option Rat) (rv : Bool),
      (WorkSession.add_check now cid step_id result fb au conf rv s).1 =
        none →
      result ≠ CheckResult.override) := by
  constructor
  · intro s now cid step_id fb au conf rv hl hs
    unfold WorkSession.add_check
    rw [if_neg (by simp [hl]), if_neg (by simp [hs])]
    obtain ⟨msg, hm⟩ := make_override_arg_none_fails step_id fb cid au
      conf rv now
    rw [hm]
    exact ⟨⟨msg, rfl⟩, rfl⟩
  · intro s now cid step_id result fb au conf rv h
    unfold WorkSession.add_check at h
    by_cases hl : s.locked = true
    · rw [if_pos hl] at h
      simp at h
    · rw [if_neg hl] at h
      by_cases hs : s.status ≠ SessionStatus.in_progress
      · rw [if_pos hs] at h
        simp at h
      · rw [if_neg hs] at h
        rcases hmk : SafetyCheck.make step_id result fb cid au conf rv
            now none none with e | c
        · rw [hmk] at h
          simp at h
        · intro hr
          subst hr
          obtain ⟨msg, hm⟩ := make_override_arg_none_fails step_id fb cid
            au conf rv now
          rw [hm] at hmk
          simp at hmk

/-- Witness for C10: on the fresh in-progress session an override-result
add_check fails and leaves the session unchanged. -/
theorem add_check_override_always_fails_witness :
    (∃ msg, (WorkSession.add_check 12 205 100 CheckResult.override "ok"
      none none false baseSession).1 = some msg) ∧
    (WorkSession.add_check 12 205 100 CheckResult.override "ok" none none
      false baseSession).2 = baseSession := by
  exact ⟨(add_check_override_always_fails.1 baseSession 12 205 100 "ok"
           none none false rfl rfl).1,
         (add_check_override_always_fails.1 baseSession 12 205 100 "ok"
           none none false rfl rfl).2⟩
